import Mathlib

/-!
Ingest-storage configuration (`pkg/storage/ingest/config.go`).

A shallow embedding of the ingest-storage configuration: the `Config` and
`KafkaConfig` structs, their validation, and their flag registration on a
`flag.FlagSet`.

* Go strings are Lean `String`s; `prefix+".address"` is `pfx ++ ".address"`.
* `time.Duration` is an `int64` count of nanoseconds, here an `Int`. The only
  arithmetic on it is in the constant expressions `2*time.Second` and
  `10*time.Second`, which do not overflow.
* A Go `error` result is an `Option GoError`, `none` being `nil`.
* Methods with a pointer receiver take the struct by value and return the
  struct they leave behind when they write to it.
* A Go panic is the `Except.error` result.
-/

namespace ingest

/-! ## Errors -/

/-- An error value made by `errors.New`: the text that `Error()` returns. -/
structure GoError where
  text : String
deriving DecidableEq, Repr

/-- The variable `ErrMissingKafkaAddress`. -/
def ErrMissingKafkaAddress : GoError :=
  ⟨"the Kafka address has not been configured"⟩

/-- The variable `ErrMissingKafkaTopic`. -/
def ErrMissingKafkaTopic : GoError :=
  ⟨"the Kafka topic has not been configured"⟩

/-! ## Durations (`time.Duration`) -/

/-- The type `time.Duration`: a number of nanoseconds. -/
abbrev Duration := Int

/-- The constant `time.Nanosecond`. -/
def Nanosecond : Duration := 1
/-- The constant `time.Microsecond`. -/
def Microsecond : Duration := 1000 * Nanosecond
/-- The constant `time.Millisecond`. -/
def Millisecond : Duration := 1000 * Microsecond
/-- The constant `time.Second`. -/
def Second : Duration := 1000 * Millisecond

/-! ## The configuration structs -/

/-- The struct `KafkaConfig`: the generic config for the Kafka backend. -/
structure KafkaConfig where
  Address : String
  Topic : String
  ClientID : String
  DialTimeout : Duration
  WriteTimeout : Duration
deriving DecidableEq, Repr

/-- The struct `Config`. -/
structure Config where
  Enabled : Bool
  KafkaConfig : KafkaConfig
deriving DecidableEq, Repr

/-! ## Validation -/

/-- The method `(*KafkaConfig).Validate`. -/
def KafkaConfig.Validate (cfg : KafkaConfig) : Option GoError :=
  if cfg.Address = "" then
    some ErrMissingKafkaAddress
  else if cfg.Topic = "" then
    some ErrMissingKafkaTopic
  else
    none

/-- The method `(*Config).Validate`: validation is skipped if disabled. -/
def Config.Validate (cfg : Config) : Option GoError :=
  if !cfg.Enabled then
    none
  else
    match cfg.KafkaConfig.Validate with
    | some err => some err
    | none => none

/-! ## Validation as a step on the struct

The two methods have a pointer receiver, so a call could write to the struct.
Here each is a step from the struct before the call to the struct after it and
the result; neither body has an assignment, and `Config.Validate` hands the
field `KafkaConfig` to `KafkaConfig.Validate` and takes it back.
-/

/-- The method `(*KafkaConfig).Validate` as a step: the struct it leaves
behind and the error it returns. -/
def KafkaConfig.ValidateStep (cfg : KafkaConfig) : KafkaConfig × Option GoError :=
  if cfg.Address = "" then
    (cfg, some ErrMissingKafkaAddress)
  else if cfg.Topic = "" then
    (cfg, some ErrMissingKafkaTopic)
  else
    (cfg, none)

/-- The method `(*Config).Validate` as a step: the struct it leaves behind
and the error it returns. -/
def Config.ValidateStep (cfg : Config) : Config × Option GoError :=
  if !cfg.Enabled then
    (cfg, none)
  else
    match cfg.KafkaConfig.ValidateStep with
    | (k, some err) => ({ cfg with KafkaConfig := k }, some err)
    | (k, none) => ({ cfg with KafkaConfig := k }, none)

/-! ## The standard library's `flag.FlagSet`

Only what registration touches: the map `formal` of defined flags and the map
`undef` of the names that were set before they were defined. A flag is kept
with its name, its usage text and the value it was defined with (Go keeps the
text of that value in `DefValue`). The map `formal` is a list in the order of
definition; at most one entry has a given name, since `Var` refuses a second.
The map `undef` is a list of pairs of a name and a position: `Set` on a name
that is not defined returns an error and records there the name with the
file and line of the call; registration reads it and never writes it.
-/

/-- The values a flag of this package can hold (`boolValue`, `stringValue`
and `durationValue` of the `flag` package). -/
inductive Value where
  | boolValue (b : Bool)
  | stringValue (s : String)
  | durationValue (d : Duration)
deriving DecidableEq, Repr

/-- The struct `flag.Flag`: a defined flag and its default. -/
structure Flag where
  Name : String
  Usage : String
  DefValue : Value
deriving DecidableEq, Repr

/-- The struct `flag.FlagSet`: the flags defined so far, and the names set
before they were defined, each with the position of the call. -/
structure FlagSet where
  formal : List Flag
  undef : List (String × String)
deriving DecidableEq, Repr

/-- The panics of `(*FlagSet).Var`, each with the name of the flag. -/
inductive Panic where
  | beginsWithDash (name : String)
  | containsEquals (name : String)
  | redefined (name : String)
  | setBeforeDefined (name : String) (pos : String)
deriving DecidableEq, Repr

/-- The function `flag.NewFlagSet`: no flag is defined. -/
def NewFlagSet : FlagSet := ⟨[], []⟩

/-- The function `strings.HasPrefix`. -/
def HasPrefix (s pfx : String) : Bool :=
  decide (pfx.toList <+: s.toList)

/-- The function `strings.Contains`. -/
def Contains (s substr : String) : Bool :=
  decide (substr.toList <:+: s.toList)

/-- The map read `f.formal[name]`. -/
def FlagSet.Lookup (f : FlagSet) (name : String) : Option Flag :=
  f.formal.find? (fun fl => fl.Name == name)

/-- The map read `f.undef[name]`: the position recorded for the name, the
empty string when there is none. -/
def FlagSet.UndefPos (f : FlagSet) (name : String) : String :=
  (f.undef.lookup name).getD ""

/-- The method `(*FlagSet).Var`: a name that begins with `-` or contains `=`
panics, a name already defined panics, a name that was set before being
defined panics, and otherwise the flag is defined. -/
def FlagSet.Var (f : FlagSet) (value : Value) (name usage : String) :
    Except Panic FlagSet :=
  if HasPrefix name "-" then
    .error (.beginsWithDash name)
  else if Contains name "=" then
    .error (.containsEquals name)
  else if (f.Lookup name).isSome then
    .error (.redefined name)
  else if f.UndefPos name ≠ "" then
    .error (.setBeforeDefined name (f.UndefPos name))
  else
    .ok { f with formal := f.formal ++ [⟨name, usage, value⟩] }

/-- The method `(*FlagSet).BoolVar`: the default is stored through the
pointer `p`, then the flag is defined. Returns what `*p` holds and the set. -/
def FlagSet.BoolVar (f : FlagSet) (name : String) (value : Bool) (usage : String) :
    Except Panic (Bool × FlagSet) := do
  let f ← f.Var (.boolValue value) name usage
  return (value, f)

/-- The method `(*FlagSet).StringVar`, as `BoolVar` for a string. -/
def FlagSet.StringVar (f : FlagSet) (name : String) (value : String) (usage : String) :
    Except Panic (String × FlagSet) := do
  let f ← f.Var (.stringValue value) name usage
  return (value, f)

/-- The method `(*FlagSet).DurationVar`, as `BoolVar` for a duration. -/
def FlagSet.DurationVar (f : FlagSet) (name : String) (value : Duration) (usage : String) :
    Except Panic (Duration × FlagSet) := do
  let f ← f.Var (.durationValue value) name usage
  return (value, f)

/-! ## Flag registration -/

/-- The method `(*KafkaConfig).RegisterFlagsWithPrefix`. Returns the config
as the five registrations leave it, and the flag set. -/
def KafkaConfig.RegisterFlagsWithPrefix (cfg : KafkaConfig) (pfx : String) (f : FlagSet) :
    Except Panic (KafkaConfig × FlagSet) := do
  let (v, f) ← f.StringVar (pfx ++ ".address") "" "The Kafka backend address."
  let cfg := { cfg with Address := v }
  let (v, f) ← f.StringVar (pfx ++ ".topic") "" "The Kafka topic name."
  let cfg := { cfg with Topic := v }
  let (v, f) ← f.StringVar (pfx ++ ".client-id") "" "The Kafka client ID."
  let cfg := { cfg with ClientID := v }
  let (v, f) ← f.DurationVar (pfx ++ ".dial-timeout") (2 * Second)
    "The maximum time allowed to open a connection to a Kafka broker."
  let cfg := { cfg with DialTimeout := v }
  let (v, f) ← f.DurationVar (pfx ++ ".write-timeout") (10 * Second)
    "How long to wait for an incoming write request to be successfully committed to the Kafka backend."
  let cfg := { cfg with WriteTimeout := v }
  return (cfg, f)

/-- The method `(*KafkaConfig).RegisterFlags`. -/
def KafkaConfig.RegisterFlags (cfg : KafkaConfig) (f : FlagSet) :
    Except Panic (KafkaConfig × FlagSet) :=
  cfg.RegisterFlagsWithPrefix "" f

/-- The method `(*Config).RegisterFlags`. -/
def Config.RegisterFlags (cfg : Config) (f : FlagSet) :
    Except Panic (Config × FlagSet) := do
  let (v, f) ← f.BoolVar "ingest-storage.enabled" false
    "True to enable the ingestion via object storage."
  let cfg := { cfg with Enabled := v }
  let (k, f) ← cfg.KafkaConfig.RegisterFlagsWithPrefix "ingest-storage.kafka" f
  return ({ cfg with KafkaConfig := k }, f)

/-- The name and default of each defined flag, in the order of definition. -/
def FlagSet.Defaults (f : FlagSet) : List (String × Value) :=
  f.formal.map (fun fl => (fl.Name, fl.DefValue))

/-! ## Validation: the error surface -/

/-- The two error variables are different values. -/
theorem ErrMissingKafkaTopic_ne_Address : ErrMissingKafkaTopic ≠ ErrMissingKafkaAddress := by
  decide

/-- What `KafkaConfig.Validate` returns, by the emptiness of the two required fields. -/
theorem KafkaConfig.Validate_eq (k : KafkaConfig) :
    k.Validate =
      if k.Address = "" then some ErrMissingKafkaAddress
      else if k.Topic = "" then some ErrMissingKafkaTopic
      else none := rfl

/-- An enabled config is validated by its Kafka part. -/
theorem Config.Validate_of_enabled (cfg : Config) (h : cfg.Enabled = true) :
    cfg.Validate = cfg.KafkaConfig.Validate := by
  unfold Config.Validate
  rw [h]
  cases cfg.KafkaConfig.Validate <;> rfl

/-- A disabled config passes. -/
theorem Config.Validate_of_disabled (cfg : Config) (h : cfg.Enabled = false) :
    cfg.Validate = none := by
  unfold Config.Validate
  rw [h]
  rfl

/-- C1: a config with `Enabled = false` passes `Config.Validate`, whatever
its Kafka fields hold. -/
theorem Validate_disabled_succeeds (cfg : Config) (h : cfg.Enabled = false) :
    cfg.Validate = none :=
  Config.Validate_of_disabled cfg h

/-- C1 at the scenario of the spec: disabled, address and topic both empty. -/
theorem Validate_disabled_succeeds_witness :
    (⟨false, ⟨"", "", "", 0, 0⟩⟩ : Config).Enabled = false ∧
      (⟨false, ⟨"", "", "", 0, 0⟩⟩ : Config).Validate = none :=
  ⟨rfl, Validate_disabled_succeeds ⟨false, ⟨"", "", "", 0, 0⟩⟩ rfl⟩

/-- C2: an enabled config with an empty address fails with
`ErrMissingKafkaAddress` whatever the topic is, and so not with
`ErrMissingKafkaTopic`, also when the topic is empty too. -/
theorem Validate_missing_address (cfg : Config) (hE : cfg.Enabled = true)
    (hA : cfg.KafkaConfig.Address = "") :
    cfg.Validate = some ErrMissingKafkaAddress ∧
      cfg.Validate ≠ some ErrMissingKafkaTopic := by
  have h : cfg.Validate = some ErrMissingKafkaAddress := by
    rw [Config.Validate_of_enabled cfg hE, KafkaConfig.Validate_eq, if_pos hA]
  refine ⟨h, ?_⟩
  rw [h]
  decide

/-- C2 at an enabled config whose address and topic are both empty. -/
theorem Validate_missing_address_witness :
    (⟨true, ⟨"", "", "c1", 2 * Second, 10 * Second⟩⟩ : Config).Validate
        = some ErrMissingKafkaAddress ∧
      (⟨true, ⟨"", "", "c1", 2 * Second, 10 * Second⟩⟩ : Config).Validate
        ≠ some ErrMissingKafkaTopic :=
  Validate_missing_address ⟨true, ⟨"", "", "c1", 2 * Second, 10 * Second⟩⟩ rfl rfl

/-- C3: an enabled config with an address and an empty topic fails with
`ErrMissingKafkaTopic`, which is not `ErrMissingKafkaAddress`, whatever the
client id and the timeouts are. -/
theorem Validate_missing_topic (cfg : Config) (hE : cfg.Enabled = true)
    (hA : cfg.KafkaConfig.Address ≠ "") (hT : cfg.KafkaConfig.Topic = "") :
    cfg.Validate = some ErrMissingKafkaTopic ∧
      cfg.Validate ≠ some ErrMissingKafkaAddress := by
  have h : cfg.Validate = some ErrMissingKafkaTopic := by
    rw [Config.Validate_of_enabled cfg hE, KafkaConfig.Validate_eq, if_neg hA, if_pos hT]
  refine ⟨h, ?_⟩
  rw [h]
  decide

/-- C3 at the scenario of the spec: address `broker:9092`, no topic, client id `c1`. -/
theorem Validate_missing_topic_witness :
    (⟨true, ⟨"broker:9092", "", "c1", 2 * Second, 10 * Second⟩⟩ : Config).Validate
        = some ErrMissingKafkaTopic ∧
      (⟨true, ⟨"broker:9092", "", "c1", 2 * Second, 10 * Second⟩⟩ : Config).Validate
        ≠ some ErrMissingKafkaAddress :=
  Validate_missing_topic ⟨true, ⟨"broker:9092", "", "c1", 2 * Second, 10 * Second⟩⟩
    rfl (by decide) rfl

/-- C4: an enabled config with an address and a topic passes `Config.Validate`. -/
theorem Validate_enabled_succeeds (cfg : Config) (hE : cfg.Enabled = true)
    (hA : cfg.KafkaConfig.Address ≠ "") (hT : cfg.KafkaConfig.Topic ≠ "") :
    cfg.Validate = none := by
  rw [Config.Validate_of_enabled cfg hE, KafkaConfig.Validate_eq, if_neg hA, if_neg hT]

/-- C4 at an enabled config with address `broker:9092` and topic `ingest`. -/
theorem Validate_enabled_succeeds_witness :
    (⟨true, ⟨"broker:9092", "ingest", "", 0, 0⟩⟩ : Config).Validate = none :=
  Validate_enabled_succeeds ⟨true, ⟨"broker:9092", "ingest", "", 0, 0⟩⟩
    rfl (by decide) (by decide)

/-- C5: `Config.Validate` returns an error exactly when the config is enabled
and its address or its topic is empty; an error it returns is one of the two
error variables; an enabled config that passes has an address and a topic. -/
theorem Validate_error_complete (cfg : Config) :
    ((∃ e, cfg.Validate = some e) ↔
        cfg.Enabled = true ∧ (cfg.KafkaConfig.Address = "" ∨ cfg.KafkaConfig.Topic = "")) ∧
      (∀ e, cfg.Validate = some e →
        e = ErrMissingKafkaAddress ∨ e = ErrMissingKafkaTopic) ∧
      (cfg.Enabled = true → cfg.Validate = none →
        cfg.KafkaConfig.Address ≠ "" ∧ cfg.KafkaConfig.Topic ≠ "") := by
  cases hE : cfg.Enabled with
  | false =>
    have h := Config.Validate_of_disabled cfg hE
    simp [h]
  | true =>
    have h := Config.Validate_of_enabled cfg hE
    rw [h, KafkaConfig.Validate_eq]
    by_cases hA : cfg.KafkaConfig.Address = ""
    · simp [hA]
    · by_cases hT : cfg.KafkaConfig.Topic = ""
      · simp [hA, hT]
      · simp [hA, hT]

/-- C6: on an enabled config `Config.Validate` returns what
`KafkaConfig.Validate` returns on its Kafka part: the same success or the
same error value. -/
theorem Validate_delegates (cfg : Config) (hE : cfg.Enabled = true) :
    cfg.Validate = cfg.KafkaConfig.Validate :=
  Config.Validate_of_enabled cfg hE

/-- C6 at an enabled config without a topic: both return `ErrMissingKafkaTopic`. -/
theorem Validate_delegates_witness :
    (⟨true, ⟨"kafka:9092", "", "", 0, 0⟩⟩ : Config).Validate
        = (⟨"kafka:9092", "", "", 0, 0⟩ : KafkaConfig).Validate ∧
      (⟨"kafka:9092", "", "", 0, 0⟩ : KafkaConfig).Validate = some ErrMissingKafkaTopic :=
  ⟨Validate_delegates ⟨true, ⟨"kafka:9092", "", "", 0, 0⟩⟩ rfl, by decide⟩

/-! ## Flag names and the flag set -/

/-- A one-character string occurs in a list of characters iff the character does. -/
theorem singleton_infix_iff_mem {α : Type} (c : α) (l : List α) : [c] <:+: l ↔ c ∈ l := by
  constructor
  · intro h
    exact h.subset (List.mem_singleton_self c)
  · intro h
    obtain ⟨s, t, rfl⟩ := List.append_of_mem h
    exact ⟨s, t, by simp⟩

/-- A name made of a prefix and a suffix begins with `-` only if the prefix
does, or the prefix is empty and the suffix does. -/
theorem HasPrefix_dash_append (p s : String) (hp : HasPrefix p "-" = false)
    (hs : HasPrefix s "-" = false) : HasPrefix (p ++ s) "-" = false := by
  unfold HasPrefix at *
  rw [decide_eq_false_iff_not] at *
  simp only [String.toList, String.data_append] at *
  cases hpd : p.data with
  | nil => simpa [hpd] using hs
  | cons x xs =>
    rw [hpd] at hp
    intro h
    apply hp
    rw [List.cons_append, List.cons_prefix_cons] at h
    rw [List.cons_prefix_cons]
    exact ⟨h.1, List.nil_prefix⟩

/-- A name made of a prefix and a suffix contains `=` only if one of them does. -/
theorem Contains_eq_append (p s : String) (hp : Contains p "=" = false)
    (hs : Contains s "=" = false) : Contains (p ++ s) "=" = false := by
  unfold Contains at *
  rw [decide_eq_false_iff_not] at *
  simp only [String.toList, String.data_append] at *
  rw [singleton_infix_iff_mem] at *
  rw [List.mem_append]
  tauto

/-- Two names with the same prefix are equal only if their suffixes are. -/
theorem append_suffix_inj (p s t : String) : p ++ s = p ++ t ↔ s = t := by
  constructor
  · intro h
    have h2 := congrArg String.data h
    rw [String.data_append, String.data_append] at h2
    exact String.ext (List.append_cancel_left h2)
  · intro h
    rw [h]

/-- A name is absent from a set extended by one flag iff it was absent and
is not the name of the flag. -/
theorem FlagSet.Lookup_append_none (l : List Flag) (u : List (String × String))
    (fl : Flag) (n : String) :
    (FlagSet.mk (l ++ [fl]) u).Lookup n = none ↔
      (FlagSet.mk l u).Lookup n = none ∧ fl.Name ≠ n := by
  simp [FlagSet.Lookup, List.find?_append]

/-- The method `Var` on a well-formed name that is not yet defined and was
not set before appends the flag. -/
theorem FlagSet.Var_ok (f : FlagSet) (value : Value) (name usage : String)
    (h1 : HasPrefix name "-" = false) (h2 : Contains name "=" = false)
    (h3 : f.Lookup name = none) (h4 : f.UndefPos name = "") :
    f.Var value name usage = .ok ⟨f.formal ++ [⟨name, usage, value⟩], f.undef⟩ := by
  simp [FlagSet.Var, h1, h2, h3, h4]

/-- The method `Var` returns only on a well-formed name that is not yet
defined and was not set before, and then it has appended the flag. -/
theorem FlagSet.Var_ok_inv (f f' : FlagSet) (value : Value) (name usage : String)
    (h : f.Var value name usage = .ok f') :
    HasPrefix name "-" = false ∧ Contains name "=" = false ∧ f.Lookup name = none ∧
      f.UndefPos name = "" ∧ f' = ⟨f.formal ++ [⟨name, usage, value⟩], f.undef⟩ := by
  unfold FlagSet.Var at h
  split at h
  · cases h
  split at h
  · cases h
  split at h
  · cases h
  split at h
  · cases h
  rename_i h1 h2 h3 h4
  cases h
  refine ⟨by simpa using h1, by simpa using h2, by simpa using h3, by simpa using h4, rfl⟩

/-- The method `Var` on a name that is already defined panics. -/
theorem FlagSet.Var_redefined (f : FlagSet) (value : Value) (name usage : String)
    (h1 : HasPrefix name "-" = false) (h2 : Contains name "=" = false)
    (fl : Flag) (h3 : f.Lookup name = some fl) :
    f.Var value name usage = .error (.redefined name) := by
  simp [FlagSet.Var, h1, h2, h3]

/-! ## Flag registration: what is defined -/

/-- The method `KafkaConfig.RegisterFlagsWithPrefix` with a prefix that makes
well-formed names, on a set that has none of the five names: the five flags
are appended in order and the config holds the five defaults. -/
theorem KafkaConfig.RegisterFlagsWithPrefix_ok (cfg : KafkaConfig) (p : String) (f : FlagSet)
    (hd : HasPrefix p "-" = false) (he : Contains p "=" = false)
    (h1 : f.Lookup (p ++ ".address") = none) (h2 : f.Lookup (p ++ ".topic") = none)
    (h3 : f.Lookup (p ++ ".client-id") = none) (h4 : f.Lookup (p ++ ".dial-timeout") = none)
    (h5 : f.Lookup (p ++ ".write-timeout") = none)
    (u1 : f.UndefPos (p ++ ".address") = "") (u2 : f.UndefPos (p ++ ".topic") = "")
    (u3 : f.UndefPos (p ++ ".client-id") = "") (u4 : f.UndefPos (p ++ ".dial-timeout") = "")
    (u5 : f.UndefPos (p ++ ".write-timeout") = "") :
    cfg.RegisterFlagsWithPrefix p f =
      .ok (⟨"", "", "", 2 * Second, 10 * Second⟩,
        ⟨f.formal ++
          [⟨p ++ ".address", "The Kafka backend address.", .stringValue ""⟩,
           ⟨p ++ ".topic", "The Kafka topic name.", .stringValue ""⟩,
           ⟨p ++ ".client-id", "The Kafka client ID.", .stringValue ""⟩,
           ⟨p ++ ".dial-timeout",
            "The maximum time allowed to open a connection to a Kafka broker.",
            .durationValue (2 * Second)⟩,
           ⟨p ++ ".write-timeout",
            "How long to wait for an incoming write request to be successfully committed to the Kafka backend.",
            .durationValue (10 * Second)⟩], f.undef⟩) := by
  have d1 := HasPrefix_dash_append p ".address" hd (by decide)
  have d2 := HasPrefix_dash_append p ".topic" hd (by decide)
  have d3 := HasPrefix_dash_append p ".client-id" hd (by decide)
  have d4 := HasPrefix_dash_append p ".dial-timeout" hd (by decide)
  have d5 := HasPrefix_dash_append p ".write-timeout" hd (by decide)
  have e1 := Contains_eq_append p ".address" he (by decide)
  have e2 := Contains_eq_append p ".topic" he (by decide)
  have e3 := Contains_eq_append p ".client-id" he (by decide)
  have e4 := Contains_eq_append p ".dial-timeout" he (by decide)
  have e5 := Contains_eq_append p ".write-timeout" he (by decide)
  simp only [FlagSet.Lookup] at h1 h2 h3 h4 h5
  simp only [FlagSet.UndefPos] at u1 u2 u3 u4 u5
  simp [KafkaConfig.RegisterFlagsWithPrefix, FlagSet.StringVar, FlagSet.DurationVar,
    FlagSet.Var, FlagSet.Lookup, FlagSet.UndefPos, List.find?_append, bind, Except.bind,
    pure, Except.pure, append_suffix_inj, d1, d2, d3, d4, d5, e1, e2, e3, e4, e5,
    h1, h2, h3, h4, h5, u1, u2, u3, u4, u5]

/-- The method `StringVar`, when it returns, has stored the default. -/
theorem FlagSet.StringVar_fst (f : FlagSet) (name value usage : String)
    (r : String × FlagSet) (h : f.StringVar name value usage = .ok r) : r.1 = value := by
  simp only [FlagSet.StringVar, bind, Except.bind, pure, Except.pure] at h
  split at h
  · cases h
  · cases h
    rfl

/-- The method `DurationVar`, when it returns, has stored the default. -/
theorem FlagSet.DurationVar_fst (f : FlagSet) (name : String) (value : Duration)
    (usage : String) (r : Duration × FlagSet)
    (h : f.DurationVar name value usage = .ok r) : r.1 = value := by
  simp only [FlagSet.DurationVar, bind, Except.bind, pure, Except.pure] at h
  split at h
  · cases h
  · cases h
    rfl

/-- The method `KafkaConfig.RegisterFlagsWithPrefix`, when it returns, leaves
the five defaults in the config, whatever the prefix and the flag set. -/
theorem KafkaConfig.RegisterFlagsWithPrefix_cfg (cfg cfg' : KafkaConfig) (p : String)
    (f f' : FlagSet) (h : cfg.RegisterFlagsWithPrefix p f = .ok (cfg', f')) :
    cfg' = ⟨"", "", "", 2 * Second, 10 * Second⟩ := by
  simp only [KafkaConfig.RegisterFlagsWithPrefix, bind, Except.bind, pure, Except.pure] at h
  split at h
  · cases h
  rename_i r1 h1
  split at h
  · cases h
  rename_i r2 h2
  split at h
  · cases h
  rename_i r3 h3
  split at h
  · cases h
  rename_i r4 h4
  split at h
  · cases h
  rename_i r5 h5
  cases h
  rw [FlagSet.StringVar_fst _ _ _ _ _ h1, FlagSet.StringVar_fst _ _ _ _ _ h2,
    FlagSet.StringVar_fst _ _ _ _ _ h3, FlagSet.DurationVar_fst _ _ _ _ _ h4,
    FlagSet.DurationVar_fst _ _ _ _ _ h5]

/-- The method `Config.RegisterFlags` on a set where the flag
`ingest-storage.enabled` is not defined and was not set before defines it and
goes on as `KafkaConfig.RegisterFlagsWithPrefix` does with
`ingest-storage.kafka`. -/
theorem Config.RegisterFlags_eq (cfg : Config) (f : FlagSet)
    (h : f.Lookup "ingest-storage.enabled" = none)
    (hu : f.UndefPos "ingest-storage.enabled" = "") :
    cfg.RegisterFlags f =
      (cfg.KafkaConfig.RegisterFlagsWithPrefix "ingest-storage.kafka"
        ⟨f.formal ++ [⟨"ingest-storage.enabled",
          "True to enable the ingestion via object storage.", .boolValue false⟩],
          f.undef⟩).map
        (fun r => (⟨false, r.1⟩, r.2)) := by
  have hv := FlagSet.Var_ok f (.boolValue false) "ingest-storage.enabled"
    "True to enable the ingestion via object storage." (by decide) (by decide) h hu
  simp only [Config.RegisterFlags, FlagSet.BoolVar, bind, Except.bind, pure, Except.pure, hv]
  cases cfg.KafkaConfig.RegisterFlagsWithPrefix "ingest-storage.kafka" _ <;> rfl

/-! ## Flag registration: the claims -/

/-- C7: `Config.RegisterFlags` on an empty flag set returns, and the set then
holds exactly six flags, with these names and defaults: `ingest-storage.enabled`
false, the Kafka address, topic and client id empty, the dial timeout 2s and the
write timeout 10s (in nanoseconds). -/
theorem RegisterFlags_six_options (cfg : Config) :
    ∃ cfg' f', cfg.RegisterFlags NewFlagSet = .ok (cfg', f') ∧
      f'.formal.length = 6 ∧
      f'.Defaults =
        [("ingest-storage.enabled", .boolValue false),
         ("ingest-storage.kafka.address", .stringValue ""),
         ("ingest-storage.kafka.topic", .stringValue ""),
         ("ingest-storage.kafka.client-id", .stringValue ""),
         ("ingest-storage.kafka.dial-timeout", .durationValue 2000000000),
         ("ingest-storage.kafka.write-timeout", .durationValue 10000000000)] :=
  ⟨_, _, rfl, rfl, rfl⟩

/-- C8: a `KafkaConfig` built from the defaults (the zero value, then flag
registration and no override) has `DialTimeout` 2s and `WriteTimeout` 10s, that
is 2000000000 and 10000000000 nanoseconds, and an empty address, topic and
client id: registration returns this config on an empty flag set, under no
prefix and under `ingest-storage.kafka`, and returns no other config whatever
the prefix and the flag set. -/
theorem KafkaConfig_defaults :
    (∃ f', (⟨"", "", "", 0, 0⟩ : KafkaConfig).RegisterFlags NewFlagSet =
        .ok (⟨"", "", "", 2000000000, 10000000000⟩, f')) ∧
      (∃ f', (⟨"", "", "", 0, 0⟩ : KafkaConfig).RegisterFlagsWithPrefix
          "ingest-storage.kafka" NewFlagSet =
        .ok (⟨"", "", "", 2000000000, 10000000000⟩, f')) ∧
      (∀ (cfg cfg' : KafkaConfig) (p : String) (f f' : FlagSet),
        cfg.RegisterFlagsWithPrefix p f = .ok (cfg', f') →
          cfg'.Address = "" ∧ cfg'.Topic = "" ∧ cfg'.ClientID = "" ∧
          cfg'.DialTimeout = 2 * Second ∧ cfg'.DialTimeout = 2000000000 ∧
          cfg'.WriteTimeout = 10 * Second ∧ cfg'.WriteTimeout = 10000000000) := by
  refine ⟨⟨_, rfl⟩, ⟨_, rfl⟩, ?_⟩
  intro cfg cfg' p f f' h
  rw [KafkaConfig.RegisterFlagsWithPrefix_cfg cfg cfg' p f f' h]
  exact ⟨rfl, rfl, rfl, rfl, rfl, rfl, rfl⟩

/-! ## Validation and the durations -/

/-- C10, as stated, fails: an enabled config with an address, a topic and both
timeouts at minus one second passes `Config.Validate`. -/
theorem Validate_accepts_negative_timeouts :
    (⟨true, ⟨"broker:9092", "ingest", "c1", -1 * Second, -1 * Second⟩⟩ : Config).Enabled = true ∧
    (⟨true, ⟨"broker:9092", "ingest", "c1", -1 * Second, -1 * Second⟩⟩ : Config).Validate = none ∧
    ¬ (0 ≤ (⟨true, ⟨"broker:9092", "ingest", "c1", -1 * Second, -1 * Second⟩⟩ :
          Config).KafkaConfig.DialTimeout ∧
        0 ≤ (⟨true, ⟨"broker:9092", "ingest", "c1", -1 * Second, -1 * Second⟩⟩ :
          Config).KafkaConfig.WriteTimeout) := by
  decide

/-- C10, amended: an enabled config that passes `Config.Validate` has an
address and a topic, and validation asks nothing of its durations: the same
config with any other `DialTimeout` and `WriteTimeout`, negative ones
included, passes too. -/
theorem Validate_ignores_timeouts (cfg : Config) (hE : cfg.Enabled = true)
    (hok : cfg.Validate = none) :
    cfg.KafkaConfig.Address ≠ "" ∧ cfg.KafkaConfig.Topic ≠ "" ∧
      ∀ d w : Duration,
        ({ cfg with KafkaConfig :=
            { cfg.KafkaConfig with DialTimeout := d, WriteTimeout := w } } : Config).Validate
          = none := by
  rw [Config.Validate_of_enabled cfg hE, KafkaConfig.Validate_eq] at hok
  by_cases hA : cfg.KafkaConfig.Address = ""
  · simp [hA] at hok
  · by_cases hT : cfg.KafkaConfig.Topic = ""
    · simp [hA, hT] at hok
    · refine ⟨hA, hT, ?_⟩
      intro d w
      simp [Config.Validate, KafkaConfig.Validate, hE, hA, hT]

/-- C10, amended, at an enabled config with the default timeouts: it passes,
and passes again with both timeouts at minus one second. -/
theorem Validate_ignores_timeouts_witness :
    (⟨true, ⟨"broker:9092", "ingest", "", 2 * Second, 10 * Second⟩⟩ : Config).Validate = none ∧
      (⟨true, ⟨"broker:9092", "ingest", "", -1 * Second, -1 * Second⟩⟩ : Config).Validate
        = none :=
  ⟨by decide,
    (Validate_ignores_timeouts ⟨true, ⟨"broker:9092", "ingest", "", 2 * Second, 10 * Second⟩⟩
      rfl (by decide)).2.2 (-1 * Second) (-1 * Second)⟩

/-! ## Validation: frame and independence -/

/-- The step of `KafkaConfig.Validate` leaves the struct as it was and returns
what `KafkaConfig.Validate` returns. -/
theorem KafkaConfig.ValidateStep_unchanged (k : KafkaConfig) :
    k.ValidateStep = (k, k.Validate) := by
  unfold KafkaConfig.ValidateStep KafkaConfig.Validate
  by_cases hA : k.Address = ""
  · simp [hA]
  · by_cases hT : k.Topic = ""
    · simp [hA, hT]
    · simp [hA, hT]

/-- The step of `Config.Validate` leaves the struct as it was and returns what
`Config.Validate` returns. -/
theorem Config.ValidateStep_eq (cfg : Config) :
    cfg.ValidateStep = (cfg, cfg.Validate) := by
  obtain ⟨en, k⟩ := cfg
  unfold Config.ValidateStep Config.Validate
  rw [KafkaConfig.ValidateStep_unchanged]
  cases en with
  | false => rfl
  | true =>
    cases hV : k.Validate with
    | none => rfl
    | some e => rfl

/-- C11: validation is a stateless predicate. Both `Validate` methods, as
steps on the struct, leave every field as it was and return the value of the
pure function of the fields; two configs with the same field values get the
same result; and validating a second time, on the struct the first call left,
gives the same struct and the same result as the first call. -/
theorem Validate_pure (cfg : Config) :
    (cfg.ValidateStep.1 = cfg ∧ cfg.ValidateStep.2 = cfg.Validate) ∧
      (cfg.KafkaConfig.ValidateStep.1 = cfg.KafkaConfig ∧
        cfg.KafkaConfig.ValidateStep.2 = cfg.KafkaConfig.Validate) ∧
      (∀ c : Config, c.Enabled = cfg.Enabled →
        c.KafkaConfig.Address = cfg.KafkaConfig.Address →
        c.KafkaConfig.Topic = cfg.KafkaConfig.Topic →
        c.KafkaConfig.ClientID = cfg.KafkaConfig.ClientID →
        c.KafkaConfig.DialTimeout = cfg.KafkaConfig.DialTimeout →
        c.KafkaConfig.WriteTimeout = cfg.KafkaConfig.WriteTimeout →
        c.ValidateStep.2 = cfg.ValidateStep.2 ∧
          c.KafkaConfig.ValidateStep.2 = cfg.KafkaConfig.ValidateStep.2) ∧
      cfg.ValidateStep.1.ValidateStep = cfg.ValidateStep ∧
      cfg.KafkaConfig.ValidateStep.1.ValidateStep = cfg.KafkaConfig.ValidateStep := by
  refine ⟨?_, ?_, ?_, ?_, ?_⟩
  · rw [Config.ValidateStep_eq]
    exact ⟨rfl, rfl⟩
  · rw [KafkaConfig.ValidateStep_unchanged]
    exact ⟨rfl, rfl⟩
  · intro c hE hA hT hC hD hW
    have hk : c.KafkaConfig = cfg.KafkaConfig := by
      cases hc : c.KafkaConfig
      cases hg : cfg.KafkaConfig
      rw [hc, hg] at hA hT hC hD hW
      simp only at hA hT hC hD hW
      rw [hA, hT, hC, hD, hW]
    have hcfg : c = cfg := by
      cases c
      cases cfg
      simp only at hE hk
      rw [hE, hk]
    rw [hcfg]
    exact ⟨rfl, rfl⟩
  · simp only [Config.ValidateStep_eq]
  · simp only [KafkaConfig.ValidateStep_unchanged]

/-- C12: `Config.RegisterFlags` on an empty flag set, whatever the config held
before, returns and leaves `Enabled` false, the address, topic and client id
empty, `DialTimeout` 2s and `WriteTimeout` 10s (in nanoseconds); and
`Config.Validate` passes on the config so left. -/
theorem RegisterFlags_resets_config (cfg : Config) :
    ∃ cfg' f', cfg.RegisterFlags NewFlagSet = .ok (cfg', f') ∧
      cfg'.Enabled = false ∧ cfg'.KafkaConfig.Address = "" ∧
      cfg'.KafkaConfig.Topic = "" ∧ cfg'.KafkaConfig.ClientID = "" ∧
      cfg'.KafkaConfig.DialTimeout = 2 * Second ∧
      cfg'.KafkaConfig.DialTimeout = 2000000000 ∧
      cfg'.KafkaConfig.WriteTimeout = 10 * Second ∧
      cfg'.KafkaConfig.WriteTimeout = 10000000000 ∧
      cfg'.Validate = none :=
  ⟨_, _, rfl, rfl, rfl, rfl, rfl, rfl, rfl, rfl, rfl, rfl⟩

/-- C13: `Config.Validate` reads only `Enabled`, `Address` and `Topic`: two
configs that agree on these three get the same result, whatever their client
ids and timeouts are; and two disabled configs get the same result, whatever
their Kafka fields are. -/
theorem Validate_independent (c₁ c₂ : Config) :
    (c₁.Enabled = c₂.Enabled → c₁.KafkaConfig.Address = c₂.KafkaConfig.Address →
        c₁.KafkaConfig.Topic = c₂.KafkaConfig.Topic → c₁.Validate = c₂.Validate) ∧
      (c₁.Enabled = false → c₂.Enabled = false → c₁.Validate = c₂.Validate) := by
  constructor
  · intro hE hA hT
    cases h : c₂.Enabled with
    | false =>
      rw [Config.Validate_of_disabled c₂ h, Config.Validate_of_disabled c₁ (hE.trans h)]
    | true =>
      rw [Config.Validate_of_enabled c₂ h, Config.Validate_of_enabled c₁ (hE.trans h),
        KafkaConfig.Validate_eq, KafkaConfig.Validate_eq, hA, hT]
  · intro h₁ h₂
    rw [Config.Validate_of_disabled c₁ h₁, Config.Validate_of_disabled c₂ h₂]

/-- C13 at two enabled configs without a topic that differ in client id and
timeouts (negative and zero against the defaults), and at two disabled configs
that differ in every Kafka field. -/
theorem Validate_independent_witness :
    (⟨true, ⟨"broker:9092", "", "c1", -1 * Second, 0⟩⟩ : Config).Validate
        = (⟨true, ⟨"broker:9092", "", "c2", 2 * Second, 10 * Second⟩⟩ : Config).Validate ∧
      (⟨false, ⟨"", "", "", -1 * Second, 0⟩⟩ : Config).Validate
        = (⟨false, ⟨"broker:9092", "ingest", "c2", 2 * Second, 10 * Second⟩⟩ : Config).Validate :=
  ⟨(Validate_independent ⟨true, ⟨"broker:9092", "", "c1", -1 * Second, 0⟩⟩
      ⟨true, ⟨"broker:9092", "", "c2", 2 * Second, 10 * Second⟩⟩).1 rfl rfl rfl,
    (Validate_independent ⟨false, ⟨"", "", "", -1 * Second, 0⟩⟩
      ⟨false, ⟨"broker:9092", "ingest", "c2", 2 * Second, 10 * Second⟩⟩).2 rfl rfl⟩

/-! ## Flag registration: names and panics -/

/-- A name whose prefix begins with `-` begins with `-`. -/
theorem HasPrefix_dash_append_of_true (p s : String) (hp : HasPrefix p "-" = true) :
    HasPrefix (p ++ s) "-" = true := by
  unfold HasPrefix at *
  rw [decide_eq_true_iff] at *
  simp only [String.toList, String.data_append] at *
  exact hp.trans (List.prefix_append _ _)

/-- A name whose prefix contains `=` contains `=`. -/
theorem Contains_eq_append_of_true (p s : String) (hp : Contains p "=" = true) :
    Contains (p ++ s) "=" = true := by
  unfold Contains at *
  rw [decide_eq_true_iff] at *
  simp only [String.toList, String.data_append] at *
  exact hp.trans (List.prefix_append _ _).isInfix

/-- The five names that `KafkaConfig.RegisterFlagsWithPrefix` makes from a
prefix are pairwise distinct. -/
theorem kafka_names_nodup (p : String) :
    [p ++ ".address", p ++ ".topic", p ++ ".client-id", p ++ ".dial-timeout",
      p ++ ".write-timeout"].Nodup := by
  simp only [List.nodup_cons, List.mem_cons, List.mem_singleton, append_suffix_inj,
    List.not_mem_nil, List.nodup_nil, not_or, not_false_eq_true, and_true]
  decide

/-- The method `KafkaConfig.RegisterFlagsWithPrefix` with a prefix that begins
with `-` panics at the first flag, on the name. -/
theorem KafkaConfig.RegisterFlagsWithPrefix_dash (cfg : KafkaConfig) (p : String)
    (f : FlagSet) (hd : HasPrefix p "-" = true) :
    cfg.RegisterFlagsWithPrefix p f = .error (.beginsWithDash (p ++ ".address")) := by
  have d1 := HasPrefix_dash_append_of_true p ".address" hd
  simp [KafkaConfig.RegisterFlagsWithPrefix, FlagSet.StringVar, FlagSet.Var, bind,
    Except.bind, d1]

/-- The method `KafkaConfig.RegisterFlagsWithPrefix` with a prefix that does
not begin with `-` and contains `=` panics at the first flag, on the name. -/
theorem KafkaConfig.RegisterFlagsWithPrefix_equals (cfg : KafkaConfig) (p : String)
    (f : FlagSet) (hd : HasPrefix p "-" = false) (he : Contains p "=" = true) :
    cfg.RegisterFlagsWithPrefix p f = .error (.containsEquals (p ++ ".address")) := by
  have d1 := HasPrefix_dash_append p ".address" hd (by decide)
  have e1 := Contains_eq_append_of_true p ".address" he
  simp [KafkaConfig.RegisterFlagsWithPrefix, FlagSet.StringVar, FlagSet.Var, bind,
    Except.bind, d1, e1]

/-! ## Flag registration: one flag at a time -/

/-- The method `Var` never ends in the redefinition panic on a name that is
not defined. -/
theorem FlagSet.Var_not_redefined (f : FlagSet) (value : Value) (name usage : String)
    (h : f.Lookup name = none) (m : String) :
    f.Var value name usage ≠ .error (.redefined m) := by
  unfold FlagSet.Var
  rw [h]
  split
  · simp
  split
  · simp
  split
  · rename_i h3
    simp at h3
  split <;> simp

/-- After `Var` has returned, a name other than the new one is defined iff it
was before. -/
theorem FlagSet.Lookup_after_Var (f f' : FlagSet) (value : Value) (name usage m : String)
    (h : f.Var value name usage = .ok f') (hm : name ≠ m) :
    f'.Lookup m = none ↔ f.Lookup m = none := by
  obtain ⟨-, -, -, -, hf⟩ := FlagSet.Var_ok_inv f f' value name usage h
  rw [hf, FlagSet.Lookup_append_none]
  exact ⟨fun h => h.1, fun h => ⟨h, hm⟩⟩

/-- The method `Var` leaves the map `undef` as it was. -/
theorem FlagSet.UndefPos_after_Var (f f' : FlagSet) (value : Value) (name usage m : String)
    (h : f.Var value name usage = .ok f') :
    f'.UndefPos m = f.UndefPos m := by
  obtain ⟨-, -, -, -, hf⟩ := FlagSet.Var_ok_inv f f' value name usage h
  rw [hf]
  rfl

/-- The method `BoolVar` returns or panics as its call of `Var` does. -/
theorem FlagSet.BoolVar_inv (f : FlagSet) (name : String) (value : Bool) (usage : String) :
    (∀ r, f.BoolVar name value usage = .ok r → f.Var (.boolValue value) name usage = .ok r.2) ∧
      (∀ e, f.BoolVar name value usage = .error e →
        f.Var (.boolValue value) name usage = .error e) := by
  simp only [FlagSet.BoolVar, bind, Except.bind, pure, Except.pure]
  cases f.Var (.boolValue value) name usage with
  | error e => simp
  | ok g =>
    refine ⟨fun r h => ?_, fun e h => ?_⟩
    · cases h
      rfl
    · cases h

/-- The method `StringVar` returns or panics as its call of `Var` does. -/
theorem FlagSet.StringVar_inv (f : FlagSet) (name value usage : String) :
    (∀ r, f.StringVar name value usage = .ok r →
        f.Var (.stringValue value) name usage = .ok r.2) ∧
      (∀ e, f.StringVar name value usage = .error e →
        f.Var (.stringValue value) name usage = .error e) := by
  simp only [FlagSet.StringVar, bind, Except.bind, pure, Except.pure]
  cases f.Var (.stringValue value) name usage with
  | error e => simp
  | ok g =>
    refine ⟨fun r h => ?_, fun e h => ?_⟩
    · cases h
      rfl
    · cases h

/-- The method `DurationVar` returns or panics as its call of `Var` does. -/
theorem FlagSet.DurationVar_inv (f : FlagSet) (name : String) (value : Duration)
    (usage : String) :
    (∀ r, f.DurationVar name value usage = .ok r →
        f.Var (.durationValue value) name usage = .ok r.2) ∧
      (∀ e, f.DurationVar name value usage = .error e →
        f.Var (.durationValue value) name usage = .error e) := by
  simp only [FlagSet.DurationVar, bind, Except.bind, pure, Except.pure]
  cases f.Var (.durationValue value) name usage with
  | error e => simp
  | ok g =>
    refine ⟨fun r h => ?_, fun e h => ?_⟩
    · cases h
      rfl
    · cases h

/-- A prefix is well formed if one name made from it with a dotted suffix is. -/
theorem wellformed_of_append (p s : String) (hd : HasPrefix (p ++ s) "-" = false)
    (he : Contains (p ++ s) "=" = false) :
    HasPrefix p "-" = false ∧ Contains p "=" = false := by
  constructor
  · cases h : HasPrefix p "-" with
    | false => rfl
    | true => rw [HasPrefix_dash_append_of_true p s h] at hd; cases hd
  · cases h : Contains p "=" with
    | false => rfl
    | true => rw [Contains_eq_append_of_true p s h] at he; cases he

/-- Two names with the same prefix and different suffixes are different. -/
theorem name_ne (p s t : String) (h : s ≠ t) : p ++ s ≠ p ++ t :=
  fun e => h ((append_suffix_inj p s t).1 e)

/-! ## Flag registration: when it returns and how it panics -/

/-- The method `KafkaConfig.RegisterFlagsWithPrefix` returns only with a
prefix that makes well-formed names, on a set where none of the five names
is defined and none was set before. -/
theorem KafkaConfig.RegisterFlagsWithPrefix_ok_inv (cfg : KafkaConfig) (p : String)
    (f : FlagSet) (r : KafkaConfig × FlagSet) (h : cfg.RegisterFlagsWithPrefix p f = .ok r) :
    (HasPrefix p "-" = false ∧ Contains p "=" = false) ∧
      (f.Lookup (p ++ ".address") = none ∧ f.Lookup (p ++ ".topic") = none ∧
        f.Lookup (p ++ ".client-id") = none ∧ f.Lookup (p ++ ".dial-timeout") = none ∧
        f.Lookup (p ++ ".write-timeout") = none) ∧
      (f.UndefPos (p ++ ".address") = "" ∧ f.UndefPos (p ++ ".topic") = "" ∧
        f.UndefPos (p ++ ".client-id") = "" ∧ f.UndefPos (p ++ ".dial-timeout") = "" ∧
        f.UndefPos (p ++ ".write-timeout") = "") := by
  simp only [KafkaConfig.RegisterFlagsWithPrefix, bind, Except.bind, pure, Except.pure] at h
  split at h
  · cases h
  rename_i r1 h1
  split at h
  · cases h
  rename_i r2 h2
  split at h
  · cases h
  rename_i r3 h3
  split at h
  · cases h
  rename_i r4 h4
  split at h
  · cases h
  rename_i r5 h5
  have v1 := (FlagSet.StringVar_inv _ _ _ _).1 _ h1
  have v2 := (FlagSet.StringVar_inv _ _ _ _).1 _ h2
  have v3 := (FlagSet.StringVar_inv _ _ _ _).1 _ h3
  have v4 := (FlagSet.DurationVar_inv _ _ _ _).1 _ h4
  have v5 := (FlagSet.DurationVar_inv _ _ _ _).1 _ h5
  obtain ⟨a1, b1, c1, u1, -⟩ := FlagSet.Var_ok_inv _ _ _ _ _ v1
  obtain ⟨-, -, c2, u2, -⟩ := FlagSet.Var_ok_inv _ _ _ _ _ v2
  obtain ⟨-, -, c3, u3, -⟩ := FlagSet.Var_ok_inv _ _ _ _ _ v3
  obtain ⟨-, -, c4, u4, -⟩ := FlagSet.Var_ok_inv _ _ _ _ _ v4
  obtain ⟨-, -, c5, u5, -⟩ := FlagSet.Var_ok_inv _ _ _ _ _ v5
  rw [FlagSet.Lookup_after_Var _ _ _ _ _ _ v1 (name_ne p _ _ (by decide))] at c2
  rw [FlagSet.Lookup_after_Var _ _ _ _ _ _ v2 (name_ne p _ _ (by decide)),
    FlagSet.Lookup_after_Var _ _ _ _ _ _ v1 (name_ne p _ _ (by decide))] at c3
  rw [FlagSet.Lookup_after_Var _ _ _ _ _ _ v3 (name_ne p _ _ (by decide)),
    FlagSet.Lookup_after_Var _ _ _ _ _ _ v2 (name_ne p _ _ (by decide)),
    FlagSet.Lookup_after_Var _ _ _ _ _ _ v1 (name_ne p _ _ (by decide))] at c4
  rw [FlagSet.Lookup_after_Var _ _ _ _ _ _ v4 (name_ne p _ _ (by decide)),
    FlagSet.Lookup_after_Var _ _ _ _ _ _ v3 (name_ne p _ _ (by decide)),
    FlagSet.Lookup_after_Var _ _ _ _ _ _ v2 (name_ne p _ _ (by decide)),
    FlagSet.Lookup_after_Var _ _ _ _ _ _ v1 (name_ne p _ _ (by decide))] at c5
  rw [FlagSet.UndefPos_after_Var _ _ _ _ _ _ v1] at u2
  rw [FlagSet.UndefPos_after_Var _ _ _ _ _ _ v2, FlagSet.UndefPos_after_Var _ _ _ _ _ _ v1] at u3
  rw [FlagSet.UndefPos_after_Var _ _ _ _ _ _ v3, FlagSet.UndefPos_after_Var _ _ _ _ _ _ v2,
    FlagSet.UndefPos_after_Var _ _ _ _ _ _ v1] at u4
  rw [FlagSet.UndefPos_after_Var _ _ _ _ _ _ v4, FlagSet.UndefPos_after_Var _ _ _ _ _ _ v3,
    FlagSet.UndefPos_after_Var _ _ _ _ _ _ v2, FlagSet.UndefPos_after_Var _ _ _ _ _ _ v1] at u5
  exact ⟨wellformed_of_append p _ a1 b1, ⟨c1, c2, c3, c4, c5⟩, ⟨u1, u2, u3, u4, u5⟩⟩

/-- The method `KafkaConfig.RegisterFlagsWithPrefix` on a set that has none
of the five names never ends in the redefinition panic, whatever the prefix
and whatever was set before. -/
theorem KafkaConfig.RegisterFlagsWithPrefix_not_redefined (cfg : KafkaConfig) (p : String)
    (f : FlagSet)
    (c1 : f.Lookup (p ++ ".address") = none) (c2 : f.Lookup (p ++ ".topic") = none)
    (c3 : f.Lookup (p ++ ".client-id") = none) (c4 : f.Lookup (p ++ ".dial-timeout") = none)
    (c5 : f.Lookup (p ++ ".write-timeout") = none) (n : String) :
    cfg.RegisterFlagsWithPrefix p f ≠ .error (.redefined n) := by
  intro h
  simp only [KafkaConfig.RegisterFlagsWithPrefix, bind, Except.bind, pure, Except.pure] at h
  split at h
  · rename_i e he
    cases h
    exact FlagSet.Var_not_redefined _ _ _ _ c1 n ((FlagSet.StringVar_inv _ _ _ _).2 _ he)
  rename_i r1 h1
  have v1 := (FlagSet.StringVar_inv _ _ _ _).1 _ h1
  rw [← FlagSet.Lookup_after_Var _ _ _ _ _ _ v1 (name_ne p _ _ (by decide))] at c2 c3 c4 c5
  split at h
  · rename_i e he
    cases h
    exact FlagSet.Var_not_redefined _ _ _ _ c2 n ((FlagSet.StringVar_inv _ _ _ _).2 _ he)
  rename_i r2 h2
  have v2 := (FlagSet.StringVar_inv _ _ _ _).1 _ h2
  rw [← FlagSet.Lookup_after_Var _ _ _ _ _ _ v2 (name_ne p _ _ (by decide))] at c3 c4 c5
  split at h
  · rename_i e he
    cases h
    exact FlagSet.Var_not_redefined _ _ _ _ c3 n ((FlagSet.StringVar_inv _ _ _ _).2 _ he)
  rename_i r3 h3
  have v3 := (FlagSet.StringVar_inv _ _ _ _).1 _ h3
  rw [← FlagSet.Lookup_after_Var _ _ _ _ _ _ v3 (name_ne p _ _ (by decide))] at c4 c5
  split at h
  · rename_i e he
    cases h
    exact FlagSet.Var_not_redefined _ _ _ _ c4 n ((FlagSet.DurationVar_inv _ _ _ _).2 _ he)
  rename_i r4 h4
  have v4 := (FlagSet.DurationVar_inv _ _ _ _).1 _ h4
  rw [← FlagSet.Lookup_after_Var _ _ _ _ _ _ v4 (name_ne p _ _ (by decide))] at c5
  split at h
  · rename_i e he
    cases h
    exact FlagSet.Var_not_redefined _ _ _ _ c5 n ((FlagSet.DurationVar_inv _ _ _ _).2 _ he)
  cases h

/-- The method `Config.RegisterFlags` on a set that has none of the six names
never ends in the redefinition panic, whatever was set before. -/
theorem Config.RegisterFlags_not_redefined (cfg : Config) (f : FlagSet)
    (c0 : f.Lookup "ingest-storage.enabled" = none)
    (c1 : f.Lookup "ingest-storage.kafka.address" = none)
    (c2 : f.Lookup "ingest-storage.kafka.topic" = none)
    (c3 : f.Lookup "ingest-storage.kafka.client-id" = none)
    (c4 : f.Lookup "ingest-storage.kafka.dial-timeout" = none)
    (c5 : f.Lookup "ingest-storage.kafka.write-timeout" = none) (n : String) :
    cfg.RegisterFlags f ≠ .error (.redefined n) := by
  intro h
  simp only [Config.RegisterFlags, bind, Except.bind, pure, Except.pure] at h
  split at h
  · rename_i e he
    cases h
    exact FlagSet.Var_not_redefined _ _ _ _ c0 n ((FlagSet.BoolVar_inv _ _ _ _).2 _ he)
  rename_i r0 h0
  have v0 := (FlagSet.BoolVar_inv _ _ _ _).1 _ h0
  rw [← FlagSet.Lookup_after_Var _ _ _ _ _ _ v0 (by decide)] at c1 c2 c3 c4 c5
  split at h
  · rename_i e he
    cases h
    exact KafkaConfig.RegisterFlagsWithPrefix_not_redefined _ _ _ c1 c2 c3 c4 c5 n he
  cases h

/-! ## Flag registration: the claims on names, sets and panics -/

/-- C9, as stated, fails: on a set that already defines `x.address`,
`KafkaConfig.RegisterFlagsWithPrefix` with prefix `x` panics on the
redefinition and adds nothing; with the prefix `-x`, or `a=b`, it panics on
the ill-formed name, also on an empty set; and on a set with no flag defined,
where `x.address` was set before, it panics with prefix `x` on the flag set
before being defined. -/
theorem RegisterFlagsWithPrefix_panics :
    (⟨"", "", "", 0, 0⟩ : KafkaConfig).RegisterFlagsWithPrefix "x"
        ⟨[⟨"x.address", "An address.", .stringValue "localhost"⟩], []⟩
      = .error (.redefined "x.address") ∧
    (⟨"", "", "", 0, 0⟩ : KafkaConfig).RegisterFlagsWithPrefix "-x" NewFlagSet
      = .error (.beginsWithDash "-x.address") ∧
    (⟨"", "", "", 0, 0⟩ : KafkaConfig).RegisterFlagsWithPrefix "a=b" NewFlagSet
      = .error (.containsEquals "a=b.address") ∧
    (⟨"", "", "", 0, 0⟩ : KafkaConfig).RegisterFlagsWithPrefix "x"
        ⟨[], [("x.address", "main.go:12")]⟩
      = .error (.setBeforeDefined "x.address" "main.go:12") :=
  ⟨rfl, rfl, rfl, rfl⟩

/-- C9, amended: for a prefix `p` that does not begin with `-` and does not
contain `=`, on a flag set where none of the five names is defined and none
was set before being defined, `KafkaConfig.RegisterFlagsWithPrefix` returns,
the flags of the set are kept and followed by exactly five new ones, named
`p.address`, `p.topic`, `p.client-id`, `p.dial-timeout` and `p.write-timeout`,
with defaults empty, empty, empty, 2s and 10s; in every other case it panics;
and on a set where `ingest-storage.enabled` is not defined and was not set
before, `Config.RegisterFlags` defines that flag and then does exactly what
`RegisterFlagsWithPrefix` does with `ingest-storage.kafka` on the set so
extended. -/
theorem RegisterFlagsWithPrefix_adds_five :
    (∀ (cfg : KafkaConfig) (p : String) (f : FlagSet),
      HasPrefix p "-" = false → Contains p "=" = false →
      (∀ s ∈ [".address", ".topic", ".client-id", ".dial-timeout", ".write-timeout"],
        f.Lookup (p ++ s) = none ∧ f.UndefPos (p ++ s) = "") →
      ∃ cfg' added,
        cfg.RegisterFlagsWithPrefix p f = .ok (cfg', ⟨f.formal ++ added, f.undef⟩) ∧
        added.length = 5 ∧
        added.map (fun fl => (fl.Name, fl.DefValue)) =
          [(p ++ ".address", .stringValue ""),
           (p ++ ".topic", .stringValue ""),
           (p ++ ".client-id", .stringValue ""),
           (p ++ ".dial-timeout", .durationValue 2000000000),
           (p ++ ".write-timeout", .durationValue 10000000000)]) ∧
    (∀ (cfg : KafkaConfig) (p : String) (f : FlagSet),
      ¬ (HasPrefix p "-" = false ∧ Contains p "=" = false ∧
        ∀ s ∈ [".address", ".topic", ".client-id", ".dial-timeout", ".write-timeout"],
          f.Lookup (p ++ s) = none ∧ f.UndefPos (p ++ s) = "") →
      ∃ e, cfg.RegisterFlagsWithPrefix p f = .error e) ∧
    (∀ (cfg : Config) (f : FlagSet), f.Lookup "ingest-storage.enabled" = none →
      f.UndefPos "ingest-storage.enabled" = "" →
      cfg.RegisterFlags f =
        (cfg.KafkaConfig.RegisterFlagsWithPrefix "ingest-storage.kafka"
          ⟨f.formal ++ [⟨"ingest-storage.enabled",
            "True to enable the ingestion via object storage.", .boolValue false⟩],
            f.undef⟩).map
          (fun r => (⟨false, r.1⟩, r.2))) := by
  refine ⟨?_, ?_, Config.RegisterFlags_eq⟩
  · intro cfg p f hd he hfree
    have h := KafkaConfig.RegisterFlagsWithPrefix_ok cfg p f hd he
      (hfree _ (by simp)).1 (hfree _ (by simp)).1 (hfree _ (by simp)).1 (hfree _ (by simp)).1
      (hfree _ (by simp)).1 (hfree _ (by simp)).2 (hfree _ (by simp)).2 (hfree _ (by simp)).2
      (hfree _ (by simp)).2 (hfree _ (by simp)).2
    exact ⟨_, _, h, rfl, rfl⟩
  · intro cfg p f hnot
    cases hr : cfg.RegisterFlagsWithPrefix p f with
    | error e => exact ⟨e, rfl⟩
    | ok r =>
      exfalso
      apply hnot
      obtain ⟨⟨hd, he⟩, ⟨c1, c2, c3, c4, c5⟩, ⟨u1, u2, u3, u4, u5⟩⟩ :=
        KafkaConfig.RegisterFlagsWithPrefix_ok_inv cfg p f r hr
      refine ⟨hd, he, ?_⟩
      intro s hs
      simp only [List.mem_cons, List.mem_singleton, List.not_mem_nil, or_false] at hs
      rcases hs with rfl | rfl | rfl | rfl | rfl
      · exact ⟨c1, u1⟩
      · exact ⟨c2, u2⟩
      · exact ⟨c3, u3⟩
      · exact ⟨c4, u4⟩
      · exact ⟨c5, u5⟩

/-- C9, amended, at the prefix `ingest-storage.kafka` on a set that defines
the flag `target` and where `verbose` was set before being defined; at the
same prefix on a set where `ingest-storage.kafka.topic` was set before, which
panics; and at `Config.RegisterFlags` on the first set. -/
theorem RegisterFlagsWithPrefix_adds_five_witness :
    (∃ cfg' added,
      (⟨"a", "b", "c", -5, 7⟩ : KafkaConfig).RegisterFlagsWithPrefix "ingest-storage.kafka"
          ⟨[⟨"target", "Modules to run.", .stringValue "all"⟩], [("verbose", "main.go:12")]⟩
        = .ok (cfg', ⟨[⟨"target", "Modules to run.", .stringValue "all"⟩] ++ added,
            [("verbose", "main.go:12")]⟩) ∧
      added.length = 5 ∧
      added.map (fun fl => (fl.Name, fl.DefValue)) =
        [("ingest-storage.kafka" ++ ".address", .stringValue ""),
         ("ingest-storage.kafka" ++ ".topic", .stringValue ""),
         ("ingest-storage.kafka" ++ ".client-id", .stringValue ""),
         ("ingest-storage.kafka" ++ ".dial-timeout", .durationValue 2000000000),
         ("ingest-storage.kafka" ++ ".write-timeout", .durationValue 10000000000)]) ∧
    (∃ e, (⟨"a", "b", "c", -5, 7⟩ : KafkaConfig).RegisterFlagsWithPrefix "ingest-storage.kafka"
        ⟨[], [("ingest-storage.kafka.topic", "main.go:12")]⟩ = .error e) ∧
    (⟨true, ⟨"a", "b", "c", -5, 7⟩⟩ : Config).RegisterFlags
        ⟨[⟨"target", "Modules to run.", .stringValue "all"⟩], [("verbose", "main.go:12")]⟩ =
      ((⟨"a", "b", "c", -5, 7⟩ : KafkaConfig).RegisterFlagsWithPrefix "ingest-storage.kafka"
        ⟨[⟨"target", "Modules to run.", .stringValue "all"⟩] ++ [⟨"ingest-storage.enabled",
          "True to enable the ingestion via object storage.", .boolValue false⟩],
          [("verbose", "main.go:12")]⟩).map
        (fun r => (⟨false, r.1⟩, r.2)) :=
  ⟨RegisterFlagsWithPrefix_adds_five.1 ⟨"a", "b", "c", -5, 7⟩ "ingest-storage.kafka"
      ⟨[⟨"target", "Modules to run.", .stringValue "all"⟩], [("verbose", "main.go:12")]⟩
      (by decide) (by decide) (by decide),
    RegisterFlagsWithPrefix_adds_five.2.1 ⟨"a", "b", "c", -5, 7⟩ "ingest-storage.kafka"
      ⟨[], [("ingest-storage.kafka.topic", "main.go:12")]⟩ (by decide),
    RegisterFlagsWithPrefix_adds_five.2.2 ⟨true, ⟨"a", "b", "c", -5, 7⟩⟩
      ⟨[⟨"target", "Modules to run.", .stringValue "all"⟩], [("verbose", "main.go:12")]⟩
      (by decide) (by decide)⟩

/-- C14: no flag is defined twice. The five names that
`KafkaConfig.RegisterFlagsWithPrefix` makes from a prefix are pairwise
distinct, for every prefix; the six names that `Config.RegisterFlags` defines
are pairwise distinct; and on a set that has none of these names, neither
`KafkaConfig.RegisterFlagsWithPrefix`, whatever the prefix, nor
`Config.RegisterFlags` ever ends in the redefinition panic, whatever was set
before. -/
theorem RegisterFlags_no_duplicate :
    (∀ p : String,
      [p ++ ".address", p ++ ".topic", p ++ ".client-id", p ++ ".dial-timeout",
        p ++ ".write-timeout"].Nodup) ∧
    (∀ cfg : Config, ∃ cfg' f', cfg.RegisterFlags NewFlagSet = .ok (cfg', f') ∧
      (f'.formal.map Flag.Name).length = 6 ∧ (f'.formal.map Flag.Name).Nodup) ∧
    (∀ (cfg : KafkaConfig) (p : String) (f : FlagSet),
      (∀ s ∈ [".address", ".topic", ".client-id", ".dial-timeout", ".write-timeout"],
        f.Lookup (p ++ s) = none) →
      ∀ n, cfg.RegisterFlagsWithPrefix p f ≠ .error (.redefined n)) ∧
    (∀ (cfg : Config) (f : FlagSet),
      (∀ n ∈ ["ingest-storage.enabled", "ingest-storage.kafka.address",
          "ingest-storage.kafka.topic", "ingest-storage.kafka.client-id",
          "ingest-storage.kafka.dial-timeout", "ingest-storage.kafka.write-timeout"],
        f.Lookup n = none) →
      ∀ n, cfg.RegisterFlags f ≠ .error (.redefined n)) := by
  refine ⟨kafka_names_nodup, fun cfg => ⟨_, _, rfl, rfl, by decide⟩, ?_, ?_⟩
  · intro cfg p f hfree n
    exact KafkaConfig.RegisterFlagsWithPrefix_not_redefined cfg p f
      (hfree _ (by simp)) (hfree _ (by simp)) (hfree _ (by simp)) (hfree _ (by simp))
      (hfree _ (by simp)) n
  · intro cfg f hfree n
    exact Config.RegisterFlags_not_redefined cfg f (hfree _ (by simp)) (hfree _ (by simp))
      (hfree _ (by simp)) (hfree _ (by simp)) (hfree _ (by simp)) (hfree _ (by simp)) n

/-- C14 at the prefix `x` on a set that defines only `target` and where
`x.topic` was set before, and at `Config.RegisterFlags` on a set that defines
only `target`: neither ends in the redefinition panic. -/
theorem RegisterFlags_no_duplicate_witness :
    (∀ n, (⟨"", "", "", 0, 0⟩ : KafkaConfig).RegisterFlagsWithPrefix "x"
        ⟨[⟨"target", "Modules to run.", .stringValue "all"⟩], [("x.topic", "main.go:12")]⟩
        ≠ .error (.redefined n)) ∧
      (∀ n, (⟨true, ⟨"a", "b", "c", 1, 2⟩⟩ : Config).RegisterFlags
        ⟨[⟨"target", "Modules to run.", .stringValue "all"⟩], []⟩ ≠ .error (.redefined n)) :=
  ⟨RegisterFlags_no_duplicate.2.2.1 ⟨"", "", "", 0, 0⟩ "x"
      ⟨[⟨"target", "Modules to run.", .stringValue "all"⟩], [("x.topic", "main.go:12")]⟩
      (by decide),
    RegisterFlags_no_duplicate.2.2.2 ⟨true, ⟨"a", "b", "c", 1, 2⟩⟩
      ⟨[⟨"target", "Modules to run.", .stringValue "all"⟩], []⟩ (by decide)⟩

/-- C15: `KafkaConfig.RegisterFlags` is `KafkaConfig.RegisterFlagsWithPrefix`
with the empty prefix. On a set where none of the names `.address`, `.topic`,
`.client-id`, `.dial-timeout` and `.write-timeout` is defined and none was set
before being defined, it returns, the flags of the set are kept and followed
by exactly five flags with these names, each beginning with a dot, with
defaults empty, empty, empty, 2s and 10s, and the config it leaves is the one
the prefixed form leaves under any prefix; and it returns on no other set. -/
theorem KafkaConfig_RegisterFlags_empty_prefix :
    (∀ (cfg : KafkaConfig) (f : FlagSet),
      cfg.RegisterFlags f = cfg.RegisterFlagsWithPrefix "" f) ∧
    (∀ (cfg : KafkaConfig) (f : FlagSet),
      (∀ n ∈ [".address", ".topic", ".client-id", ".dial-timeout", ".write-timeout"],
        f.Lookup n = none ∧ f.UndefPos n = "") →
      ∃ cfg' added, cfg.RegisterFlags f = .ok (cfg', ⟨f.formal ++ added, f.undef⟩) ∧
        added.map (fun fl => (fl.Name, fl.DefValue)) =
          [(".address", .stringValue ""),
           (".topic", .stringValue ""),
           (".client-id", .stringValue ""),
           (".dial-timeout", .durationValue 2000000000),
           (".write-timeout", .durationValue 10000000000)] ∧
        (∀ fl ∈ added, HasPrefix fl.Name "." = true) ∧
        (∀ (cfg₂ cfg₂' : KafkaConfig) (p : String) (g g' : FlagSet),
          cfg₂.RegisterFlagsWithPrefix p g = .ok (cfg₂', g') → cfg₂' = cfg')) ∧
    (∀ (cfg : KafkaConfig) (f : FlagSet) (r : KafkaConfig × FlagSet),
      cfg.RegisterFlags f = .ok r →
      ∀ n ∈ [".address", ".topic", ".client-id", ".dial-timeout", ".write-timeout"],
        f.Lookup n = none ∧ f.UndefPos n = "") := by
  refine ⟨fun _ _ => rfl, ?_, ?_⟩
  · intro cfg f hfree
    have h := KafkaConfig.RegisterFlagsWithPrefix_ok cfg "" f (by decide) (by decide)
      (hfree _ (by simp)).1 (hfree _ (by simp)).1 (hfree _ (by simp)).1 (hfree _ (by simp)).1
      (hfree _ (by simp)).1 (hfree _ (by simp)).2 (hfree _ (by simp)).2 (hfree _ (by simp)).2
      (hfree _ (by simp)).2 (hfree _ (by simp)).2
    refine ⟨_, _, h, rfl, by decide, ?_⟩
    intro cfg₂ cfg₂' p g g' hg
    exact KafkaConfig.RegisterFlagsWithPrefix_cfg cfg₂ cfg₂' p g g' hg
  · intro cfg f r hr n hn
    obtain ⟨-, ⟨c1, c2, c3, c4, c5⟩, ⟨u1, u2, u3, u4, u5⟩⟩ :=
      KafkaConfig.RegisterFlagsWithPrefix_ok_inv cfg "" f r hr
    simp only [List.mem_cons, List.mem_singleton, List.not_mem_nil, or_false] at hn
    rcases hn with rfl | rfl | rfl | rfl | rfl
    · exact ⟨c1, u1⟩
    · exact ⟨c2, u2⟩
    · exact ⟨c3, u3⟩
    · exact ⟨c4, u4⟩
    · exact ⟨c5, u5⟩

/-- C15 at a config with prior values, on a set that defines only `target`
and where only `verbose` was set before being defined. -/
theorem KafkaConfig_RegisterFlags_empty_prefix_witness :
    ∃ cfg' added,
      (⟨"a", "b", "c", 1, 2⟩ : KafkaConfig).RegisterFlags
          ⟨[⟨"target", "Modules to run.", .stringValue "all"⟩], [("verbose", "main.go:12")]⟩
        = .ok (cfg', ⟨[⟨"target", "Modules to run.", .stringValue "all"⟩] ++ added,
            [("verbose", "main.go:12")]⟩) ∧
      added.map (fun fl => (fl.Name, fl.DefValue)) =
        [(".address", .stringValue ""),
         (".topic", .stringValue ""),
         (".client-id", .stringValue ""),
         (".dial-timeout", .durationValue 2000000000),
         (".write-timeout", .durationValue 10000000000)] ∧
      (∀ fl ∈ added, HasPrefix fl.Name "." = true) ∧
      (∀ (cfg₂ cfg₂' : KafkaConfig) (p : String) (g g' : FlagSet),
        cfg₂.RegisterFlagsWithPrefix p g = .ok (cfg₂', g') → cfg₂' = cfg') :=
  KafkaConfig_RegisterFlags_empty_prefix.2.1 ⟨"a", "b", "c", 1, 2⟩
    ⟨[⟨"target", "Modules to run.", .stringValue "all"⟩], [("verbose", "main.go:12")]⟩
    (by decide)

end ingest
